import Mathlib

/-!
Verification of the alignment pipeline of `scripts/test-alignment.ts`
(cover-fit resolver, landmark coordinate mapper, alignment estimator).

JavaScript numbers are modelled by exact rationals `ℚ`; landmark arrays by
`List (Option Landmark)`, where a `none` entry models an `undefined` slot and
an out-of-range index lookup also yields `none` (as JS array indexing does).
-/

namespace PoseProof

/-- Visibility threshold constant from the source (`VISIBILITY_THRESHOLD = 0.5`). -/
def VISIBILITY_THRESHOLD : ℚ := 1/2

/-- A detected pose landmark (`interface Landmark`). -/
structure Landmark where
  x : ℚ
  y : ℚ
  z : ℚ
  visibility : ℚ
  deriving DecidableEq, Repr

/-- A 2D point in export-canvas pixels. -/
structure Point2 where
  x : ℚ
  y : ℚ
  deriving DecidableEq, Repr

/-- Result of `calculateCoverFit`. -/
structure CoverFit where
  drawX : ℚ
  drawY : ℚ
  drawWidth : ℚ
  drawHeight : ℚ
  deriving DecidableEq, Repr

/-- Result of `calculateExportAlignment`. -/
structure AlignmentResult where
  scale : ℚ
  offsetX : ℚ
  offsetY : ℚ
  deriving DecidableEq, Repr

/-- The anchor choice (`AnchorType`): head, shoulders, hips or full. -/
inductive AnchorType where
  | head
  | shoulders
  | hips
  | full
  deriving DecidableEq, Repr

/-- Landmark index sets per anchor (`anchorIndices` record). -/
def anchorIndices : AnchorType → List ℕ
  | .head => [0]
  | .shoulders => [11, 12]
  | .hips => [23, 24]
  | .full => [0, 23, 24]

/-- Array indexing `landmarks[idx]` on a possibly-holed JS array: out of range
or a hole both give `undefined` (modelled `none`). -/
def getLm (lms : List (Option Landmark)) (idx : ℕ) : Option Landmark :=
  (lms.get? idx).join

/-- Model of `calculateCoverFit` from the source, verbatim over exact rationals. -/
def calculateCoverFit (imgWidth imgHeight targetWidth targetHeight : ℚ) : CoverFit :=
  let imgAspect := imgWidth / imgHeight
  let targetAspect := targetWidth / targetHeight
  if targetAspect < imgAspect then
    -- Image is wider - fit to height
    { drawHeight := targetHeight
      drawWidth := targetHeight * imgAspect
      drawX := (targetWidth - targetHeight * imgAspect) / 2
      drawY := 0 }
  else
    -- Image is taller - fit to width
    { drawWidth := targetWidth
      drawHeight := targetWidth / imgAspect
      drawX := 0
      drawY := (targetHeight - targetWidth / imgAspect) / 2 }

/-- Model of `transformLandmarkToExport` from the source. -/
def transformLandmarkToExport (landmark : Point2)
    (imgWidth imgHeight targetWidth targetHeight : ℚ) : Point2 :=
  let fit := calculateCoverFit imgWidth imgHeight targetWidth targetHeight
  { x := fit.drawX + landmark.x * fit.drawWidth
    y := fit.drawY + landmark.y * fit.drawHeight }

/-- The anchor-centroid accumulation loops of `calculateExportAlignment`:
running sums of export-space x, y and the usable-landmark count, over the
anchor's index list. -/
def anchorAccum (lms : List (Option Landmark)) (w h tw th : ℚ) :
    List ℕ → ℚ × ℚ × ℕ
  | [] => (0, 0, 0)
  | i :: rest =>
    let r := anchorAccum lms w h tw th rest
    match getLm lms i with
    | some lm =>
      if VISIBILITY_THRESHOLD ≤ lm.visibility then
        let pos := transformLandmarkToExport ⟨lm.x, lm.y⟩ w h tw th
        (pos.x + r.1, pos.y + r.2.1, r.2.2 + 1)
      else r
    | none => r

/-- A possibly-absent landmark is usable when present with
`visibility >= VISIBILITY_THRESHOLD` (JS: `lm && lm.visibility >= 0.5`,
and `undefined >= 0.5` is false). -/
def lmUsable : Option Landmark → Prop
  | some lm => VISIBILITY_THRESHOLD ≤ lm.visibility
  | none => False

instance : DecidablePred lmUsable := fun o =>
  match o with
  | some lm => (inferInstance : Decidable (VISIBILITY_THRESHOLD ≤ lm.visibility))
  | none => (inferInstance : Decidable False)

/-- Number of usable landmarks among the given indices (the final value of
`beforeCount` / `afterCount` in the source's loops). -/
def usableCount (lms : List (Option Landmark)) (idxs : List ℕ) : ℕ :=
  (idxs.filter (fun i => decide (lmUsable (getLm lms i)))).length

/-- The anchor centroid: arithmetic mean of the usable anchor landmarks mapped
into export coordinates (meaningful only when the usable count is nonzero). -/
def anchorCentroid (lms : List (Option Landmark)) (w h tw th : ℚ)
    (idxs : List ℕ) : Point2 :=
  let a := anchorAccum lms w h tw th idxs
  ⟨a.1 / (a.2.2 : ℚ), a.2.1 / (a.2.2 : ℚ)⟩

/-- All six of before/after nose (0), left hip (23), right hip (24) present and
passing the visibility threshold — the Stage-B guard
(`beforeNose?.visibility >= VISIBILITY_THRESHOLD && ...`). -/
def sixUsable (before after : List (Option Landmark)) : Prop :=
  lmUsable (getLm before 0) ∧ lmUsable (getLm before 23) ∧
  lmUsable (getLm before 24) ∧ lmUsable (getLm after 0) ∧
  lmUsable (getLm after 23) ∧ lmUsable (getLm after 24)

instance (before after : List (Option Landmark)) :
    Decidable (sixUsable before after) := by
  unfold sixUsable; infer_instance

/-- Export-space y coordinate of a possibly-absent landmark (junk `0` when
absent; only used under `lmUsable`-style guards). -/
def exportY (o : Option Landmark) (w h tw th : ℚ) : ℚ :=
  match o with
  | some lm => (transformLandmarkToExport ⟨lm.x, lm.y⟩ w h tw th).y
  | none => 0

/-- Nose-to-hip-center vertical span in export coordinates
(`beforeBodyHeight` / `afterBodyHeight` in the source). -/
def bodySpan (lms : List (Option Landmark)) (w h tw th : ℚ) : ℚ :=
  |(exportY (getLm lms 23) w h tw th + exportY (getLm lms 24) w h tw th) / 2 -
    exportY (getLm lms 0) w h tw th|

/-- The Stage-B scale computation of `calculateExportAlignment` (lines 132-168
of the source): clamp of the body-height ratio when all six fixed landmarks
are usable and the after span is positive, else `1`. -/
def stageBScale (before after : List (Option Landmark))
    (bw bh aw ah tw th : ℚ) : ℚ :=
  if sixUsable before after then
    let bSpan := bodySpan before bw bh tw th
    let aSpan := bodySpan after aw ah tw th
    if 0 < aSpan then max (1/2) (min 2 (bSpan / aSpan)) else 1
  else 1

/-- Model of `calculateExportAlignment` from the source, over exact rationals. -/
def calculateExportAlignment (beforeLandmarks afterLandmarks : List (Option Landmark))
    (beforeImgWidth beforeImgHeight afterImgWidth afterImgHeight
     targetWidth targetHeight : ℚ) (anchor : AnchorType) : AlignmentResult :=
  let idxs := anchorIndices anchor
  let bA := anchorAccum beforeLandmarks beforeImgWidth beforeImgHeight
    targetWidth targetHeight idxs
  let aA := anchorAccum afterLandmarks afterImgWidth afterImgHeight
    targetWidth targetHeight idxs
  if bA.2.2 = 0 ∨ aA.2.2 = 0 then ⟨1, 0, 0⟩
  else
    let beforeX := bA.1 / (bA.2.2 : ℚ)
    let beforeY := bA.2.1 / (bA.2.2 : ℚ)
    let afterX := aA.1 / (aA.2.2 : ℚ)
    let afterY := aA.2.1 / (aA.2.2 : ℚ)
    let scale := stageBScale beforeLandmarks afterLandmarks beforeImgWidth
      beforeImgHeight afterImgWidth afterImgHeight targetWidth targetHeight
    let centerX := targetWidth / 2
    let centerY := targetHeight / 2
    let scaledAfterX := centerX + (afterX - centerX) * scale
    let scaledAfterY := centerY + (afterY - centerY) * scale
    ⟨scale, beforeX - scaledAfterX, beforeY - scaledAfterY⟩

/-- Member access `o.visibility` on a possibly-`undefined` JS value: `none`
models the TypeError a real access on `undefined` would raise. -/
def visMember : Option Landmark → Option ℚ
  | some lm => some lm.visibility
  | none => none

/-- Optional chaining `o?.visibility`: never throws, yields `undefined` when
the receiver is `undefined`. -/
def optVis : Option Landmark → Option ℚ
  | some lm => some lm.visibility
  | none => none

/-- JS comparison `a >= b` where `a` may be `undefined`
(`undefined >= b` is `false`). -/
def jsGE (a : Option ℚ) (b : ℚ) : Bool :=
  match a with
  | some v => decide (b ≤ v)
  | none => false

/-- The centroid loops with every member access on a possibly-`undefined`
value threaded through `Option` (a `none` result would model a thrown
TypeError). The source guards each access with `lm && ...`. -/
def anchorAccumChecked (lms : List (Option Landmark)) (w h tw th : ℚ) :
    List ℕ → Option (ℚ × ℚ × ℕ)
  | [] => some (0, 0, 0)
  | i :: rest =>
    (anchorAccumChecked lms w h tw th rest).bind fun r =>
      match getLm lms i with
      | some lm =>
        (visMember (some lm)).bind fun vis =>
          if VISIBILITY_THRESHOLD ≤ vis then
            let pos := transformLandmarkToExport ⟨lm.x, lm.y⟩ w h tw th
            some (pos.x + r.1, pos.y + r.2.1, r.2.2 + 1)
          else some r
      | none => some r

/-- Stage B with JS partiality made explicit: the guard uses optional
chaining (never throws); inside the guarded branch the six landmark objects
are dereferenced, which would throw (`none`) were any of them `undefined`. -/
def stageBScaleChecked (before after : List (Option Landmark))
    (bw bh aw ah tw th : ℚ) : Option ℚ :=
  if jsGE (optVis (getLm before 0)) VISIBILITY_THRESHOLD &&
     jsGE (optVis (getLm before 23)) VISIBILITY_THRESHOLD &&
     jsGE (optVis (getLm before 24)) VISIBILITY_THRESHOLD &&
     jsGE (optVis (getLm after 0)) VISIBILITY_THRESHOLD &&
     jsGE (optVis (getLm after 23)) VISIBILITY_THRESHOLD &&
     jsGE (optVis (getLm after 24)) VISIBILITY_THRESHOLD then
    (getLm before 0).bind fun bN =>
    (getLm before 23).bind fun bLH =>
    (getLm before 24).bind fun bRH =>
    (getLm after 0).bind fun aN =>
    (getLm after 23).bind fun aLH =>
    (getLm after 24).bind fun aRH =>
      let bNoseY := (transformLandmarkToExport ⟨bN.x, bN.y⟩ bw bh tw th).y
      let bHipY := ((transformLandmarkToExport ⟨bLH.x, bLH.y⟩ bw bh tw th).y +
                    (transformLandmarkToExport ⟨bRH.x, bRH.y⟩ bw bh tw th).y) / 2
      let aNoseY := (transformLandmarkToExport ⟨aN.x, aN.y⟩ aw ah tw th).y
      let aHipY := ((transformLandmarkToExport ⟨aLH.x, aLH.y⟩ aw ah tw th).y +
                    (transformLandmarkToExport ⟨aRH.x, aRH.y⟩ aw ah tw th).y) / 2
      let bSpan := |bHipY - bNoseY|
      let aSpan := |aHipY - aNoseY|
      some (if 0 < aSpan then max (1/2) (min 2 (bSpan / aSpan)) else 1)
  else some 1

/-- Model of `calculateExportAlignment` with JS partiality made explicit: `some r`
means the call returns `r`; `none` would model an uncaught exception. -/
def calculateExportAlignmentChecked (before after : List (Option Landmark))
    (bw bh aw ah tw th : ℚ) (anchor : AnchorType) : Option AlignmentResult :=
  let idxs := anchorIndices anchor
  (anchorAccumChecked before bw bh tw th idxs).bind fun bA =>
  (anchorAccumChecked after aw ah tw th idxs).bind fun aA =>
  if bA.2.2 = 0 ∨ aA.2.2 = 0 then some ⟨1, 0, 0⟩
  else
    (stageBScaleChecked before after bw bh aw ah tw th).bind fun scale =>
      let beforeX := bA.1 / (bA.2.2 : ℚ)
      let beforeY := bA.2.1 / (bA.2.2 : ℚ)
      let afterX := aA.1 / (aA.2.2 : ℚ)
      let afterY := aA.2.1 / (aA.2.2 : ℚ)
      let centerX := tw / 2
      let centerY := th / 2
      some ⟨scale, beforeX - (centerX + (afterX - centerX) * scale),
                   beforeY - (centerY + (afterY - centerY) * scale)⟩

/-- A 25-entry landmark list shaped like a detector output restricted to the
indices this pipeline reads: nose at 0, hips at 23/24, everything else a
hole. Used for concrete test inputs. -/
def demoLms (noseY hipY : ℚ) : List (Option Landmark) :=
  some ⟨1/2, noseY, 0, 1⟩ :: List.replicate 22 none ++
    [some ⟨2/5, hipY, 0, 1⟩, some ⟨3/5, hipY, 0, 1⟩]

/-! ### Helper lemmas -/

/-- Reduction of the usability test on an absent landmark. -/
@[simp] theorem decide_lmUsable_none : decide (lmUsable none) = false := rfl

/-- Reduction of the usability test on a present landmark. -/
@[simp] theorem decide_lmUsable_some (lm : Landmark) :
    decide (lmUsable (some lm)) = decide (VISIBILITY_THRESHOLD ≤ lm.visibility) := rfl

/-- The loop counter computed by `anchorAccum` is the number of usable
landmarks among the indices. -/
theorem anchorAccum_count (lms : List (Option Landmark)) (w h tw th : ℚ)
    (idxs : List ℕ) :
    (anchorAccum lms w h tw th idxs).2.2 = usableCount lms idxs := by
  induction idxs with
  | nil => rfl
  | cons i rest ih =>
    unfold anchorAccum usableCount
    cases hg : getLm lms i with
    | none =>
      simp only [hg, List.filter_cons, lmUsable, decide_False]
      simpa [usableCount] using ih
    | some lm =>
      by_cases hv : VISIBILITY_THRESHOLD ≤ lm.visibility
      · simp only [hg, hv, if_pos, List.filter_cons, lmUsable, decide_True]
        simpa [usableCount] using ih
      · simp only [hg, hv, if_neg, List.filter_cons, lmUsable]
        simpa [usableCount, hv] using ih

/-- Unfolding of `calculateExportAlignment` in the non-fallback case. -/
theorem calculateExportAlignment_of_counts_pos
    (before after : List (Option Landmark)) (bw bh aw ah tw th : ℚ)
    (anchor : AnchorType)
    (hb : usableCount before (anchorIndices anchor) ≠ 0)
    (ha : usableCount after (anchorIndices anchor) ≠ 0) :
    calculateExportAlignment before after bw bh aw ah tw th anchor =
      let bA := anchorAccum before bw bh tw th (anchorIndices anchor)
      let aA := anchorAccum after aw ah tw th (anchorIndices anchor)
      let scale := stageBScale before after bw bh aw ah tw th
      ⟨scale,
        bA.1 / (bA.2.2 : ℚ) - (tw / 2 + (aA.1 / (aA.2.2 : ℚ) - tw / 2) * scale),
        bA.2.1 / (bA.2.2 : ℚ) - (th / 2 + (aA.2.1 / (aA.2.2 : ℚ) - th / 2) * scale)⟩ := by
  unfold calculateExportAlignment
  rw [if_neg]
  rw [anchorAccum_count, anchorAccum_count]
  simp [hb, ha]

/-- Fallback helper: a zero usable count on either side gives the identity
result. -/
theorem alignment_eq_identity_of_count_zero
    (before after : List (Option Landmark)) (bw bh aw ah tw th : ℚ)
    (anchor : AnchorType)
    (h : usableCount before (anchorIndices anchor) = 0 ∨
         usableCount after (anchorIndices anchor) = 0) :
    calculateExportAlignment before after bw bh aw ah tw th anchor = ⟨1, 0, 0⟩ := by
  unfold calculateExportAlignment
  rw [if_pos]
  rw [anchorAccum_count, anchorAccum_count]
  exact h

/-- In the non-fallback case the returned scale is the Stage-B scale. -/
theorem alignment_scale_of_counts_pos
    (before after : List (Option Landmark)) (bw bh aw ah tw th : ℚ)
    (anchor : AnchorType)
    (hb : usableCount before (anchorIndices anchor) ≠ 0)
    (ha : usableCount after (anchorIndices anchor) ≠ 0) :
    (calculateExportAlignment before after bw bh aw ah tw th anchor).scale =
      stageBScale before after bw bh aw ah tw th := by
  rw [calculateExportAlignment_of_counts_pos before after bw bh aw ah tw th anchor hb ha]

/-! ### Claim theorems -/

/-- C2: if either side has zero usable landmarks among the chosen anchor's
indices (every entry there absent or below the visibility threshold), the
result is exactly the identity `{scale: 1, offsetX: 0, offsetY: 0}`,
whatever the remaining landmarks are. -/
theorem alignment_identity_of_no_usable_anchor
    (before after : List (Option Landmark)) (bw bh aw ah tw th : ℚ)
    (anchor : AnchorType)
    (h : usableCount before (anchorIndices anchor) = 0 ∨
         usableCount after (anchorIndices anchor) = 0) :
    calculateExportAlignment before after bw bh aw ah tw th anchor = ⟨1, 0, 0⟩ :=
  alignment_eq_identity_of_count_zero before after bw bh aw ah tw th anchor h

/-- Witness for C2 at a concrete input: with the shoulders anchor, inputs
whose shoulder slots (11, 12) are holes have zero usable anchor landmarks on
both sides and yield the identity result — even though all six Stage-B
landmarks (0, 23, 24 on both sides) are usable. -/
theorem alignment_identity_of_no_usable_anchor_witness :
    (usableCount (demoLms 0 1) (anchorIndices .shoulders) = 0 ∨
      usableCount (demoLms (2/5) (1/2)) (anchorIndices .shoulders) = 0) ∧
    sixUsable (demoLms 0 1) (demoLms (2/5) (1/2)) ∧
    calculateExportAlignment (demoLms 0 1) (demoLms (2/5) (1/2))
      1 1 1 1 1 1 .shoulders = ⟨1, 0, 0⟩ :=
  ⟨Or.inl (by norm_num [usableCount, anchorIndices, getLm, demoLms,
      List.replicate, lmUsable, List.filter]),
   by norm_num [sixUsable, getLm, demoLms, List.replicate, lmUsable,
      VISIBILITY_THRESHOLD],
   alignment_identity_of_no_usable_anchor (demoLms 0 1) (demoLms (2/5) (1/2))
      1 1 1 1 1 1 .shoulders
      (Or.inl (by norm_num [usableCount, anchorIndices, getLm, demoLms,
        List.replicate, lmUsable, List.filter]))⟩

/-- C1: whenever both sides have at least one usable landmark among the
chosen anchor's indices, the returned offsets satisfy
`offsetX = beforeCentroid.x - (centerX + (afterCentroid.x - centerX) * scale)`
and likewise for y, where the centroids are the means of the usable anchor
landmarks mapped to export coordinates, `(centerX, centerY)` is the export
canvas center and `scale` is the Stage-B result. -/
theorem alignment_offsets_eq
    (before after : List (Option Landmark)) (bw bh aw ah tw th : ℚ)
    (anchor : AnchorType)
    (hb : 0 < usableCount before (anchorIndices anchor))
    (ha : 0 < usableCount after (anchorIndices anchor)) :
    (calculateExportAlignment before after bw bh aw ah tw th anchor).offsetX =
      (anchorCentroid before bw bh tw th (anchorIndices anchor)).x -
        (tw / 2 +
          ((anchorCentroid after aw ah tw th (anchorIndices anchor)).x - tw / 2) *
            stageBScale before after bw bh aw ah tw th) ∧
    (calculateExportAlignment before after bw bh aw ah tw th anchor).offsetY =
      (anchorCentroid before bw bh tw th (anchorIndices anchor)).y -
        (th / 2 +
          ((anchorCentroid after aw ah tw th (anchorIndices anchor)).y - th / 2) *
            stageBScale before after bw bh aw ah tw th) := by
  rw [calculateExportAlignment_of_counts_pos before after bw bh aw ah tw th anchor
    (Nat.pos_iff_ne_zero.mp hb) (Nat.pos_iff_ne_zero.mp ha)]
  exact ⟨rfl, rfl⟩

/-- Witness for C1 at a concrete input: single-landmark arrays, head anchor. -/
theorem alignment_offsets_eq_witness :
    0 < usableCount [some (⟨1/4, 1/3, 0, 1⟩ : Landmark)] (anchorIndices .head) ∧
    0 < usableCount [some (⟨1/2, 2/3, 0, 9/10⟩ : Landmark)] (anchorIndices .head) ∧
    ((calculateExportAlignment [some ⟨1/4, 1/3, 0, 1⟩] [some ⟨1/2, 2/3, 0, 9/10⟩]
        1 1 1 1 1 1 .head).offsetX =
      (anchorCentroid [some ⟨1/4, 1/3, 0, 1⟩] 1 1 1 1 (anchorIndices .head)).x -
        (1 / 2 +
          ((anchorCentroid [some ⟨1/2, 2/3, 0, 9/10⟩] 1 1 1 1 (anchorIndices .head)).x -
            1 / 2) *
          stageBScale [some ⟨1/4, 1/3, 0, 1⟩] [some ⟨1/2, 2/3, 0, 9/10⟩] 1 1 1 1 1 1) ∧
     (calculateExportAlignment [some ⟨1/4, 1/3, 0, 1⟩] [some ⟨1/2, 2/3, 0, 9/10⟩]
        1 1 1 1 1 1 .head).offsetY =
      (anchorCentroid [some ⟨1/4, 1/3, 0, 1⟩] 1 1 1 1 (anchorIndices .head)).y -
        (1 / 2 +
          ((anchorCentroid [some ⟨1/2, 2/3, 0, 9/10⟩] 1 1 1 1 (anchorIndices .head)).y -
            1 / 2) *
          stageBScale [some ⟨1/4, 1/3, 0, 1⟩] [some ⟨1/2, 2/3, 0, 9/10⟩] 1 1 1 1 1 1)) :=
  ⟨by norm_num [usableCount, anchorIndices, getLm, lmUsable, VISIBILITY_THRESHOLD,
      List.filter],
   by norm_num [usableCount, anchorIndices, getLm, lmUsable, VISIBILITY_THRESHOLD,
      List.filter],
   alignment_offsets_eq [some ⟨1/4, 1/3, 0, 1⟩] [some ⟨1/2, 2/3, 0, 9/10⟩]
      1 1 1 1 1 1 .head
      (by norm_num [usableCount, anchorIndices, getLm, lmUsable, VISIBILITY_THRESHOLD,
        List.filter])
      (by norm_num [usableCount, anchorIndices, getLm, lmUsable, VISIBILITY_THRESHOLD,
        List.filter])⟩

/-- Clamping to `[1/2, 2]` written inside-out or outside-in is the same. -/
theorem clamp_half_two_comm (r : ℚ) :
    max (1/2) (min 2 r) = min 2 (max (1/2) r) := by
  rw [min_max_distrib_left]
  norm_num

/-- C3: outside the anchor identity fallback, the returned scale is the
clamped body-height ratio `min 2 (max (1/2) (beforeSpan / afterSpan))` when
all six fixed landmarks are usable and the after span is positive, and
exactly `1` in every other case; it always lies in `[1/2, 2]`. -/
theorem alignment_scale_characterization
    (before after : List (Option Landmark)) (bw bh aw ah tw th : ℚ)
    (anchor : AnchorType)
    (hb : 0 < usableCount before (anchorIndices anchor))
    (ha : 0 < usableCount after (anchorIndices anchor)) :
    (sixUsable before after ∧ 0 < bodySpan after aw ah tw th →
      (calculateExportAlignment before after bw bh aw ah tw th anchor).scale =
        min 2 (max (1/2)
          (bodySpan before bw bh tw th / bodySpan after aw ah tw th))) ∧
    (¬(sixUsable before after ∧ 0 < bodySpan after aw ah tw th) →
      (calculateExportAlignment before after bw bh aw ah tw th anchor).scale = 1) ∧
    1/2 ≤ (calculateExportAlignment before after bw bh aw ah tw th anchor).scale ∧
    (calculateExportAlignment before after bw bh aw ah tw th anchor).scale ≤ 2 := by
  rw [alignment_scale_of_counts_pos before after bw bh aw ah tw th anchor
    (Nat.pos_iff_ne_zero.mp hb) (Nat.pos_iff_ne_zero.mp ha)]
  by_cases h6 : sixUsable before after
  · by_cases hsp : 0 < bodySpan after aw ah tw th
    · have hval : stageBScale before after bw bh aw ah tw th =
          max (1/2) (min 2 (bodySpan before bw bh tw th / bodySpan after aw ah tw th)) := by
        simp only [stageBScale]
        rw [if_pos h6, if_pos hsp]
      rw [hval]
      exact ⟨fun _ => clamp_half_two_comm _, fun hcon => absurd ⟨h6, hsp⟩ hcon,
        le_max_left _ _, max_le (by norm_num) (min_le_left _ _)⟩
    · have hval : stageBScale before after bw bh aw ah tw th = 1 := by
        simp only [stageBScale]
        rw [if_pos h6, if_neg hsp]
      rw [hval]
      exact ⟨fun hcon => absurd hcon.2 hsp, fun _ => rfl, by norm_num, by norm_num⟩
  · have hval : stageBScale before after bw bh aw ah tw th = 1 := by
      simp only [stageBScale]
      rw [if_neg h6]
    rw [hval]
    exact ⟨fun hcon => absurd hcon.1 h6, fun _ => rfl, by norm_num, by norm_num⟩

/-- The Stage-B scale of an input against itself is `1`. -/
theorem stageBScale_self (lms : List (Option Landmark)) (w h tw th : ℚ) :
    stageBScale lms lms w h w h tw th = 1 := by
  simp only [stageBScale]
  by_cases h6 : sixUsable lms lms
  · rw [if_pos h6]
    by_cases hp : 0 < bodySpan lms w h tw th
    · rw [if_pos hp, div_self (ne_of_gt hp)]
      rw [min_eq_right (by norm_num : (1:ℚ) ≤ 2),
        max_eq_right (by norm_num : (1/2:ℚ) ≤ 1)]
    · rw [if_neg hp]
  · rw [if_neg h6]

/-- C4: aligning an input against itself (same landmark array, same
dimensions on both sides) yields the exact identity result for every
anchor type and every export target. -/
theorem alignment_self_identity (lms : List (Option Landmark)) (w h tw th : ℚ)
    (anchor : AnchorType) :
    calculateExportAlignment lms lms w h w h tw th anchor = ⟨1, 0, 0⟩ := by
  by_cases hc : usableCount lms (anchorIndices anchor) = 0
  · exact alignment_eq_identity_of_count_zero lms lms w h w h tw th anchor (Or.inl hc)
  · rw [calculateExportAlignment_of_counts_pos lms lms w h w h tw th anchor hc hc,
      stageBScale_self]
    simp only [AlignmentResult.mk.injEq]
    refine ⟨by norm_num, by ring, by ring⟩

/-- Witness for C3 at concrete inputs: a raw body-height ratio of `10`
clamps to scale exactly `2`, and a raw ratio of `1/100` clamps to exactly
`1/2`. -/
theorem alignment_scale_characterization_witness :
    0 < usableCount (demoLms 0 1) (anchorIndices .full) ∧
    0 < usableCount (demoLms (2/5) (1/2)) (anchorIndices .full) ∧
    ((sixUsable (demoLms 0 1) (demoLms (2/5) (1/2)) ∧
        0 < bodySpan (demoLms (2/5) (1/2)) 1 1 1 1 →
      (calculateExportAlignment (demoLms 0 1) (demoLms (2/5) (1/2))
          1 1 1 1 1 1 .full).scale =
        min 2 (max (1/2)
          (bodySpan (demoLms 0 1) 1 1 1 1 / bodySpan (demoLms (2/5) (1/2)) 1 1 1 1))) ∧
     (¬(sixUsable (demoLms 0 1) (demoLms (2/5) (1/2)) ∧
         0 < bodySpan (demoLms (2/5) (1/2)) 1 1 1 1) →
      (calculateExportAlignment (demoLms 0 1) (demoLms (2/5) (1/2))
          1 1 1 1 1 1 .full).scale = 1) ∧
     1/2 ≤ (calculateExportAlignment (demoLms 0 1) (demoLms (2/5) (1/2))
          1 1 1 1 1 1 .full).scale ∧
     (calculateExportAlignment (demoLms 0 1) (demoLms (2/5) (1/2))
          1 1 1 1 1 1 .full).scale ≤ 2) ∧
    (calculateExportAlignment (demoLms 0 1) (demoLms (2/5) (1/2))
        1 1 1 1 1 1 .full).scale = 2 ∧
    (calculateExportAlignment (demoLms (2/5) (41/100)) (demoLms 0 1)
        1 1 1 1 1 1 .full).scale = 1/2 := by
  refine ⟨?_, ?_,
    alignment_scale_characterization (demoLms 0 1) (demoLms (2/5) (1/2))
      1 1 1 1 1 1 .full ?_ ?_, ?_, ?_⟩ <;>
    norm_num [calculateExportAlignment, anchorAccum, anchorIndices, getLm, demoLms,
      List.replicate, transformLandmarkToExport, calculateCoverFit, stageBScale,
      sixUsable, lmUsable, bodySpan, exportY, VISIBILITY_THRESHOLD, abs, min_def,
      max_def, usableCount, List.filter]

/-- Unfolding of `calculateCoverFit` as a single conditional. -/
theorem calculateCoverFit_eq (w h tw th : ℚ) :
    calculateCoverFit w h tw th =
      if tw / th < w / h then
        ⟨(tw - th * (w / h)) / 2, 0, th * (w / h), th⟩
      else
        ⟨0, (th - tw / (w / h)) / 2, tw, tw / (w / h)⟩ := rfl

/-- In the fit-to-height branch the drawn width is at least the target
width. -/
theorem cover_wide_bound (w h tw th : ℚ) (hth : 0 < th) (hc : tw / th ≤ w / h) :
    tw ≤ th * (w / h) := by
  have h1 : tw / th * th = tw := div_mul_cancel₀ tw (ne_of_gt hth)
  calc tw = tw / th * th := h1.symm
    _ ≤ w / h * th := mul_le_mul_of_nonneg_right hc (le_of_lt hth)
    _ = th * (w / h) := mul_comm _ _

/-- In the fit-to-width branch the drawn height is at least the target
height. -/
theorem cover_tall_bound (w h tw th : ℚ) (hw : 0 < w) (hh : 0 < h)
    (hth : 0 < th) (hc : w / h ≤ tw / th) : th ≤ tw / (w / h) := by
  have haspect : 0 < w / h := div_pos hw hh
  rw [le_div_iff₀ haspect]
  calc th * (w / h) ≤ th * (tw / th) := mul_le_mul_of_nonneg_left hc (le_of_lt hth)
    _ = tw := by rw [mul_comm, div_mul_cancel₀ tw (ne_of_gt hth)]

/-- C5: for positive inputs the drawn rectangle fully covers the target
(`drawWidth ≥ targetWidth` and `drawHeight ≥ targetHeight`). -/
theorem coverFit_covers (w h tw th : ℚ) (hw : 0 < w) (hh : 0 < h)
    (htw : 0 < tw) (hth : 0 < th) :
    tw ≤ (calculateCoverFit w h tw th).drawWidth ∧
    th ≤ (calculateCoverFit w h tw th).drawHeight := by
  rw [calculateCoverFit_eq]
  by_cases hc : tw / th < w / h
  · rw [if_pos hc]
    exact ⟨cover_wide_bound w h tw th hth (le_of_lt hc), le_refl th⟩
  · rw [if_neg hc]
    push_neg at hc
    exact ⟨le_refl tw, cover_tall_bound w h tw th hw hh hth hc⟩

/-- Witness for C5 at the concrete input `(1, 2, 3, 4)`. -/
theorem coverFit_covers_witness :
    (0:ℚ) < 1 ∧ (0:ℚ) < 2 ∧ (0:ℚ) < 3 ∧ (0:ℚ) < 4 ∧
    ((3:ℚ) ≤ (calculateCoverFit 1 2 3 4).drawWidth ∧
     (4:ℚ) ≤ (calculateCoverFit 1 2 3 4).drawHeight) :=
  ⟨by norm_num, by norm_num, by norm_num, by norm_num,
    coverFit_covers 1 2 3 4 (by norm_num) (by norm_num) (by norm_num) (by norm_num)⟩

/-- C6 counterexample: at the positive input `(2, 1, 1, 1)` the drawn
rectangle has `drawX = -1/2` and `drawY = 0`, so both `drawX ≤ 0` and
`drawY ≤ 0` hold and "exactly one of `drawX ≤ 0` / `drawY ≤ 0` holds, with
the other coordinate exactly 0" is false. -/
theorem coverFit_exclusive_cropped_axis_false :
    (0:ℚ) < 2 ∧ (0:ℚ) < 1 ∧
    ¬(((calculateCoverFit 2 1 1 1).drawX ≤ 0 ∧
        ¬(calculateCoverFit 2 1 1 1).drawY ≤ 0 ∧
        (calculateCoverFit 2 1 1 1).drawY = 0) ∨
      ((calculateCoverFit 2 1 1 1).drawY ≤ 0 ∧
        ¬(calculateCoverFit 2 1 1 1).drawX ≤ 0 ∧
        (calculateCoverFit 2 1 1 1).drawX = 0)) := by
  norm_num [calculateCoverFit]

/-- C6 (amended): for positive inputs, one of `drawX`/`drawY` is exactly `0`
and the other is `≤ 0`. -/
theorem coverFit_cropped_axis (w h tw th : ℚ) (hw : 0 < w) (hh : 0 < h)
    (htw : 0 < tw) (hth : 0 < th) :
    ((calculateCoverFit w h tw th).drawX = 0 ∧
      (calculateCoverFit w h tw th).drawY ≤ 0) ∨
    ((calculateCoverFit w h tw th).drawY = 0 ∧
      (calculateCoverFit w h tw th).drawX ≤ 0) := by
  rw [calculateCoverFit_eq]
  by_cases hc : tw / th < w / h
  · rw [if_pos hc]
    right
    refine ⟨rfl, ?_⟩
    have h1 : tw ≤ th * (w / h) := cover_wide_bound w h tw th hth (le_of_lt hc)
    show (tw - th * (w / h)) / 2 ≤ 0
    linarith
  · rw [if_neg hc]
    push_neg at hc
    left
    refine ⟨rfl, ?_⟩
    have h1 : th ≤ tw / (w / h) := cover_tall_bound w h tw th hw hh hth hc
    show (th - tw / (w / h)) / 2 ≤ 0
    linarith

/-- Witness for the amended C6 at the concrete input `(2, 1, 1, 1)`. -/
theorem coverFit_cropped_axis_witness :
    (0:ℚ) < 2 ∧ (0:ℚ) < 1 ∧
    (((calculateCoverFit 2 1 1 1).drawX = 0 ∧
       (calculateCoverFit 2 1 1 1).drawY ≤ 0) ∨
     ((calculateCoverFit 2 1 1 1).drawY = 0 ∧
       (calculateCoverFit 2 1 1 1).drawX ≤ 0)) :=
  ⟨by norm_num, by norm_num,
    coverFit_cropped_axis 2 1 1 1 (by norm_num) (by norm_num) (by norm_num)
      (by norm_num)⟩

/-- C7: the landmark mapper is the affine map of the cover-fit rectangle:
`(0,0)` goes to the rectangle's top-left corner, `(1,1)` to its bottom-right
corner, and in general `p ↦ (drawX + p.x * drawWidth, drawY + p.y * drawHeight)`. -/
theorem transform_affine_of_coverFit (w h tw th : ℚ) :
    transformLandmarkToExport ⟨0, 0⟩ w h tw th =
      ⟨(calculateCoverFit w h tw th).drawX, (calculateCoverFit w h tw th).drawY⟩ ∧
    transformLandmarkToExport ⟨1, 1⟩ w h tw th =
      ⟨(calculateCoverFit w h tw th).drawX + (calculateCoverFit w h tw th).drawWidth,
       (calculateCoverFit w h tw th).drawY + (calculateCoverFit w h tw th).drawHeight⟩ ∧
    ∀ p : Point2, transformLandmarkToExport p w h tw th =
      ⟨(calculateCoverFit w h tw th).drawX + p.x * (calculateCoverFit w h tw th).drawWidth,
       (calculateCoverFit w h tw th).drawY + p.y * (calculateCoverFit w h tw th).drawHeight⟩ := by
  refine ⟨?_, ?_, fun p => rfl⟩ <;>
    simp [transformLandmarkToExport]

/-- C8: whenever two anchor choices both avoid the identity fallback on the
same inputs, the returned scale is the same for both — it is the Stage-B
value computed from the fixed nose/hip triple, independent of the anchor. -/
theorem alignment_scale_anchor_independent
    (before after : List (Option Landmark)) (bw bh aw ah tw th : ℚ)
    (a1 a2 : AnchorType)
    (h1b : 0 < usableCount before (anchorIndices a1))
    (h1a : 0 < usableCount after (anchorIndices a1))
    (h2b : 0 < usableCount before (anchorIndices a2))
    (h2a : 0 < usableCount after (anchorIndices a2)) :
    (calculateExportAlignment before after bw bh aw ah tw th a1).scale =
      stageBScale before after bw bh aw ah tw th ∧
    (calculateExportAlignment before after bw bh aw ah tw th a1).scale =
      (calculateExportAlignment before after bw bh aw ah tw th a2).scale := by
  have e1 := alignment_scale_of_counts_pos before after bw bh aw ah tw th a1
    (Nat.pos_iff_ne_zero.mp h1b) (Nat.pos_iff_ne_zero.mp h1a)
  have e2 := alignment_scale_of_counts_pos before after bw bh aw ah tw th a2
    (Nat.pos_iff_ne_zero.mp h2b) (Nat.pos_iff_ne_zero.mp h2a)
  exact ⟨e1, e1.trans e2.symm⟩

/-- Witness for C8 at a concrete input: head and hips anchors yield the same
scale. -/
theorem alignment_scale_anchor_independent_witness :
    0 < usableCount (demoLms 0 1) (anchorIndices .head) ∧
    0 < usableCount (demoLms (2/5) (1/2)) (anchorIndices .head) ∧
    0 < usableCount (demoLms 0 1) (anchorIndices .hips) ∧
    0 < usableCount (demoLms (2/5) (1/2)) (anchorIndices .hips) ∧
    ((calculateExportAlignment (demoLms 0 1) (demoLms (2/5) (1/2))
        1 1 1 1 1 1 .head).scale =
      stageBScale (demoLms 0 1) (demoLms (2/5) (1/2)) 1 1 1 1 1 1 ∧
     (calculateExportAlignment (demoLms 0 1) (demoLms (2/5) (1/2))
        1 1 1 1 1 1 .head).scale =
      (calculateExportAlignment (demoLms 0 1) (demoLms (2/5) (1/2))
        1 1 1 1 1 1 .hips).scale) := by
  refine ⟨?_, ?_, ?_, ?_,
    alignment_scale_anchor_independent (demoLms 0 1) (demoLms (2/5) (1/2))
      1 1 1 1 1 1 .head .hips ?_ ?_ ?_ ?_⟩ <;>
    norm_num [usableCount, anchorIndices, getLm, demoLms, List.replicate, lmUsable,
      VISIBILITY_THRESHOLD, List.filter]

/-- The checked centroid loop never hits an unguarded `undefined` access. -/
theorem anchorAccumChecked_eq (lms : List (Option Landmark)) (w h tw th : ℚ)
    (idxs : List ℕ) :
    anchorAccumChecked lms w h tw th idxs = some (anchorAccum lms w h tw th idxs) := by
  induction idxs with
  | nil => rfl
  | cons i rest ih =>
    unfold anchorAccumChecked anchorAccum
    rw [ih]
    cases hg : getLm lms i with
    | none => simp
    | some lm =>
      by_cases hv : VISIBILITY_THRESHOLD ≤ lm.visibility
      · simp [visMember, hv]
      · simp [visMember, hv]

/-- The optional-chained visibility test agrees with `lmUsable`. -/
theorem jsGE_optVis_iff (o : Option Landmark) :
    jsGE (optVis o) VISIBILITY_THRESHOLD = true ↔ lmUsable o := by
  cases o <;> simp [jsGE, optVis, lmUsable]

/-- The source's six-way visibility guard agrees with `sixUsable`. -/
theorem sixUsable_chain_iff (before after : List (Option Landmark)) :
    (jsGE (optVis (getLm before 0)) VISIBILITY_THRESHOLD &&
     jsGE (optVis (getLm before 23)) VISIBILITY_THRESHOLD &&
     jsGE (optVis (getLm before 24)) VISIBILITY_THRESHOLD &&
     jsGE (optVis (getLm after 0)) VISIBILITY_THRESHOLD &&
     jsGE (optVis (getLm after 23)) VISIBILITY_THRESHOLD &&
     jsGE (optVis (getLm after 24)) VISIBILITY_THRESHOLD) = true ↔
    sixUsable before after := by
  simp only [Bool.and_eq_true, jsGE_optVis_iff, sixUsable]
  tauto

/-- A usable optional landmark is present. -/
theorem lmUsable_isSome {o : Option Landmark} (h : lmUsable o) :
    ∃ lm, o = some lm := by
  cases o with
  | some lm => exact ⟨lm, rfl⟩
  | none => exact absurd h (by simp [lmUsable])

/-- The checked Stage-B computation never hits an unguarded `undefined`
access: the guard ensures all six dereferenced landmarks are present. -/
theorem stageBScaleChecked_eq (before after : List (Option Landmark))
    (bw bh aw ah tw th : ℚ) :
    stageBScaleChecked before after bw bh aw ah tw th =
      some (stageBScale before after bw bh aw ah tw th) := by
  by_cases h6 : sixUsable before after
  · have hchain := (sixUsable_chain_iff before after).mpr h6
    obtain ⟨h0, h23, h24, h0a, h23a, h24a⟩ := h6
    obtain ⟨bN, hbN⟩ := lmUsable_isSome h0
    obtain ⟨bLH, hbLH⟩ := lmUsable_isSome h23
    obtain ⟨bRH, hbRH⟩ := lmUsable_isSome h24
    obtain ⟨aN, haN⟩ := lmUsable_isSome h0a
    obtain ⟨aLH, haLH⟩ := lmUsable_isSome h23a
    obtain ⟨aRH, haRH⟩ := lmUsable_isSome h24a
    unfold stageBScaleChecked stageBScale
    rw [if_pos hchain, hbN, hbLH, hbRH, haN, haLH, haRH,
      if_pos ⟨hbN ▸ h0, hbLH ▸ h23, hbRH ▸ h24, haN ▸ h0a, haLH ▸ h23a, haRH ▸ h24a⟩]
    simp [bodySpan, exportY, hbN, hbLH, hbRH, haN, haLH, haRH]
  · have hchain : ¬(jsGE (optVis (getLm before 0)) VISIBILITY_THRESHOLD &&
        jsGE (optVis (getLm before 23)) VISIBILITY_THRESHOLD &&
        jsGE (optVis (getLm before 24)) VISIBILITY_THRESHOLD &&
        jsGE (optVis (getLm after 0)) VISIBILITY_THRESHOLD &&
        jsGE (optVis (getLm after 23)) VISIBILITY_THRESHOLD &&
        jsGE (optVis (getLm after 24)) VISIBILITY_THRESHOLD) = true := fun hc =>
      h6 ((sixUsable_chain_iff before after).mp hc)
    unfold stageBScaleChecked stageBScale
    rw [if_neg hchain, if_neg h6]

/-- C9: `calculateExportAlignment` is total and never throws — the variant in
which every member access on a possibly-`undefined` JS value is modelled as
fallible returns `some` of the plain result on every input: any landmark
arrays (of any length — out-of-range anchor or Stage-B lookups act as
missing landmarks), any rational dimensions and export target, and any
anchor type. -/
theorem calculateExportAlignment_never_throws
    (before after : List (Option Landmark)) (bw bh aw ah tw th : ℚ)
    (anchor : AnchorType) :
    calculateExportAlignmentChecked before after bw bh aw ah tw th anchor =
      some (calculateExportAlignment before after bw bh aw ah tw th anchor) := by
  simp only [calculateExportAlignmentChecked, calculateExportAlignment,
    anchorAccumChecked_eq, stageBScaleChecked_eq, Option.some_bind]
  by_cases hc : (anchorAccum before bw bh tw th (anchorIndices anchor)).2.2 = 0 ∨
      (anchorAccum after aw ah tw th (anchorIndices anchor)).2.2 = 0
  · rw [if_pos hc, if_pos hc]
  · rw [if_neg hc, if_neg hc]

/-- Cover fit depends on the source only through its aspect ratio. -/
theorem calculateCoverFit_dims_scale (k w h tw th : ℚ) (hk : k ≠ 0) :
    calculateCoverFit (k * w) (k * h) tw th = calculateCoverFit w h tw th := by
  unfold calculateCoverFit
  rw [mul_div_mul_left w h hk]

/-- The landmark mapper depends on the source only through its aspect
ratio. -/
theorem transform_dims_scale (k w h tw th : ℚ) (hk : k ≠ 0) (p : Point2) :
    transformLandmarkToExport p (k * w) (k * h) tw th =
      transformLandmarkToExport p w h tw th := by
  unfold transformLandmarkToExport
  rw [calculateCoverFit_dims_scale k w h tw th hk]

/-- The centroid loop sums depend on the source only through its aspect
ratio. -/
theorem anchorAccum_dims_scale (k w h tw th : ℚ) (hk : k ≠ 0)
    (lms : List (Option Landmark)) (idxs : List ℕ) :
    anchorAccum lms (k * w) (k * h) tw th idxs = anchorAccum lms w h tw th idxs := by
  induction idxs with
  | nil => rfl
  | cons i rest ih =>
    unfold anchorAccum
    rw [ih]
    cases hg : getLm lms i with
    | none => simp
    | some lm => simp [transform_dims_scale k w h tw th hk]

/-- The body span depends on the source only through its aspect ratio. -/
theorem bodySpan_dims_scale (k w h tw th : ℚ) (hk : k ≠ 0)
    (lms : List (Option Landmark)) :
    bodySpan lms (k * w) (k * h) tw th = bodySpan lms w h tw th := by
  unfold bodySpan exportY
  cases getLm lms 23 <;> cases getLm lms 24 <;> cases getLm lms 0 <;>
    simp [transform_dims_scale k w h tw th hk]

/-- Stage B is unchanged when the before image's dimensions are rescaled. -/
theorem stageBScale_dims_scale_before (k bw bh aw ah tw th : ℚ) (hk : k ≠ 0)
    (before after : List (Option Landmark)) :
    stageBScale before after (k * bw) (k * bh) aw ah tw th =
      stageBScale before after bw bh aw ah tw th := by
  unfold stageBScale
  rw [bodySpan_dims_scale k bw bh tw th hk]

/-- Stage B is unchanged when the after image's dimensions are rescaled. -/
theorem stageBScale_dims_scale_after (k bw bh aw ah tw th : ℚ) (hk : k ≠ 0)
    (before after : List (Option Landmark)) :
    stageBScale before after bw bh (k * aw) (k * ah) tw th =
      stageBScale before after bw bh aw ah tw th := by
  unfold stageBScale
  rw [bodySpan_dims_scale k aw ah tw th hk]

/-- C10: the cover fit, the landmark mapper and the whole alignment result
are unchanged when either source image's width and height are both
multiplied by the same positive factor — they depend on a source image only
through its aspect ratio. -/
theorem coverFit_aspect_ratio_only (k w h tw th bw bh aw ah : ℚ)
    (before after : List (Option Landmark)) (p : Point2) (anchor : AnchorType)
    (hk : 0 < k) :
    calculateCoverFit (k * w) (k * h) tw th = calculateCoverFit w h tw th ∧
    transformLandmarkToExport p (k * w) (k * h) tw th =
      transformLandmarkToExport p w h tw th ∧
    calculateExportAlignment before after (k * bw) (k * bh) aw ah tw th anchor =
      calculateExportAlignment before after bw bh aw ah tw th anchor ∧
    calculateExportAlignment before after bw bh (k * aw) (k * ah) tw th anchor =
      calculateExportAlignment before after bw bh aw ah tw th anchor := by
  have hk0 : k ≠ 0 := ne_of_gt hk
  refine ⟨calculateCoverFit_dims_scale k w h tw th hk0,
    transform_dims_scale k w h tw th hk0 p, ?_, ?_⟩
  · simp only [calculateExportAlignment,
      anchorAccum_dims_scale k bw bh tw th hk0,
      stageBScale_dims_scale_before k bw bh aw ah tw th hk0]
  · simp only [calculateExportAlignment,
      anchorAccum_dims_scale k aw ah tw th hk0,
      stageBScale_dims_scale_after k bw bh aw ah tw th hk0]

/-- Witness for C10 at a concrete input with factor `k = 2`. -/
theorem coverFit_aspect_ratio_only_witness :
    (0:ℚ) < 2 ∧
    (calculateCoverFit (2 * 3) (2 * 5) 7 11 = calculateCoverFit 3 5 7 11 ∧
     transformLandmarkToExport ⟨1/3, 1/7⟩ (2 * 3) (2 * 5) 7 11 =
       transformLandmarkToExport ⟨1/3, 1/7⟩ 3 5 7 11 ∧
     calculateExportAlignment (demoLms 0 1) (demoLms (2/5) (1/2))
         (2 * 3) (2 * 5) 13 17 7 11 .full =
       calculateExportAlignment (demoLms 0 1) (demoLms (2/5) (1/2)) 3 5 13 17 7 11 .full ∧
     calculateExportAlignment (demoLms 0 1) (demoLms (2/5) (1/2))
         3 5 (2 * 13) (2 * 17) 7 11 .full =
       calculateExportAlignment (demoLms 0 1) (demoLms (2/5) (1/2)) 3 5 13 17 7 11 .full) :=
  ⟨by norm_num,
    coverFit_aspect_ratio_only 2 3 5 7 11 3 5 13 17 (demoLms 0 1)
      (demoLms (2/5) (1/2)) ⟨1/3, 1/7⟩ .full (by norm_num)⟩

end PoseProof
